import Mathlib

/-!
Shallow embedding of the authorization and tenant-isolation layer of a
multi-tenant library-management backend.

Embedded sources:
- `auth.js` — permission-checking middleware (`checkPermission`,
  `checkPermissions`), role gates (`checkAdmin`, `checkAdminOrStaff`),
  authentication gates, `ensureOwnerDataIsolation`, and the user
  login/logout handlers; modelled in namespace `Auth`.
- `ownerAuth.js` — owner login/logout handlers, `authenticateOwner`,
  `ensureOwnerDataIsolation`; modelled in namespace `OwnerAuth`.
- `branches.js` — the capability gates the branch router installs.

JavaScript truthiness of identifier-like fields (which may be
undefined/null or a string) is modelled by `truthy` on `Option String`:
truthy iff present and non-empty. Objects are always truthy in JS, so a
session slot's truthiness is `Option.isSome`. Logging calls
(`console.log`/`console.warn`) are side effects outside the model and
are dropped. Database access in the login handlers is modelled as a
lookup in an explicit list of rows; `bcrypt.compare` is an explicit
function parameter of the owner login handler.
-/

/-- JS truthiness of an optional string field: `undefined`/`null` and
the empty string are falsy. -/
def truthy : Option String → Bool
  | none => false
  | some s => !(s == "")

/-- JS `String.prototype.toUpperCase()`, character-wise uppercasing (the
strings the middleware compares are ASCII). -/
def jsToUpperCase (s : String) : String := String.mk (s.data.map Char.toUpper)

/-- `req.session.user` as written by the user login handler:
`{ id, username, role, permissions }`. `permissions` may be null in the
database row, hence `Option`. -/
structure UserPrincipal where
  id : Option String
  username : String
  role : String
  permissions : Option (List String)
deriving DecidableEq, Repr

/-- `req.session.owner` as written by the owner login handler:
`{ id, libraryCode, libraryName, ownerName, ownerEmail, role }`. -/
structure OwnerPrincipal where
  id : Option String
  libraryCode : String
  libraryName : String
  ownerName : String
  ownerEmail : String
  role : String
deriving DecidableEq, Repr

/-- `req.session.student`: only the `id` field is inspected by the
middleware in scope. -/
structure StudentPrincipal where
  id : Option String
deriving DecidableEq, Repr

/-- The three session slots `req.session.owner`, `req.session.user`,
`req.session.student`; `none` means the slot is unset. -/
structure Session where
  owner : Option OwnerPrincipal
  user : Option UserPrincipal
  student : Option StudentPrincipal
deriving DecidableEq, Repr

/-- A session with no slot set (anonymous client). -/
def Session.empty : Session := { owner := none, user := none, student := none }

/-- Request context: the session plus the fields middleware attaches
(`req.owner`, `req.libraryId`); an unset JS field is `none`. -/
structure Request where
  session : Session
  owner : Option OwnerPrincipal
  libraryId : Option String
deriving DecidableEq, Repr

/-- Outcome of one middleware: either `next` with the (possibly mutated)
request, or an HTTP response with a status code and message. -/
inductive MwResult where
  | next (req : Request)
  | respond (status : Nat) (message : String)
deriving DecidableEq, Repr

/-- A middleware outcome admits the request iff it called `next`. -/
def MwResult.admits : MwResult → Bool
  | .next _ => true
  | .respond _ _ => false

namespace Auth

/-- The tail of `checkPermission` in auth.js: when the user-branch did
not return, control falls through to the owner check, else 401. -/
def checkPermissionOwnerFallthrough (req : Request) : MwResult :=
  if req.session.owner.isSome then
    .next req
  else
    .respond 401 "Unauthorized - Please log in"

/-- `checkPermission(permission)` from auth.js: if a user is in session,
admit on role admin or staff, else admit when `permissions || []`
includes the permission; otherwise fall through to the owner check and
finally reject 401. -/
def checkPermission (permission : String) (req : Request) : MwResult :=
  match req.session.user with
  | some u =>
    if u.role == "admin" || u.role == "staff" then
      .next req
    else if (u.permissions.getD []).contains permission then
      .next req
    else
      checkPermissionOwnerFallthrough req
  | none => checkPermissionOwnerFallthrough req

/-- `checkPermissions(permissions = [], logic = 'OR')` from auth.js:
owner bypass, then 401 without a user, admin bypass, then evaluate the
capability set with `every` when `logic.toUpperCase() === 'AND'` and
`some` otherwise; reject 403 when the check fails. -/
def checkPermissions (permissions : List String) (logic : String)
    (req : Request) : MwResult :=
  if req.session.owner.isSome then
    .next req
  else
    match req.session.user with
    | none => .respond 401 "Unauthorized - Please log in"
    | some u =>
      if u.role == "admin" then
        .next req
      else
        let userPermissions := u.permissions.getD []
        let hasPermission : Bool :=
          if jsToUpperCase logic == "AND" then
            permissions.all (fun p => userPermissions.contains p)
          else
            permissions.any (fun p => userPermissions.contains p)
        if !hasPermission then
          .respond 403 "Forbidden - Insufficient permissions"
        else
          .next req

/-- A call of `checkPermissions` that omits the second argument, so JS
applies the default `logic = 'OR'`. -/
def checkPermissionsDefaultLogic (permissions : List String) :
    Request → MwResult :=
  checkPermissions permissions "OR"

/-- `checkAdmin` from auth.js. -/
def checkAdmin (req : Request) : MwResult :=
  if req.session.owner.isSome then
    .next req
  else
    match req.session.user with
    | none => .respond 401 "Unauthorized - Please log in"
    | some u =>
      if u.role != "admin" then
        .respond 403 "Forbidden: Admin access required"
      else
        .next req

/-- `checkAdminOrStaff` from auth.js: owner bypass, 401 without a user,
admit on role admin or staff, else 403. -/
def checkAdminOrStaff (req : Request) : MwResult :=
  if req.session.owner.isSome then
    .next req
  else
    match req.session.user with
    | none => .respond 401 "Unauthorized - Please log in"
    | some u =>
      if u.role == "admin" || u.role == "staff" then
        .next req
      else
        .respond 403 "Forbidden: Admin or Staff access required"

/-- `authenticateOwner` from auth.js: admits iff the session owner is
present with a truthy id; attaches `req.owner` and `req.libraryId`. -/
def authenticateOwner (req : Request) : MwResult :=
  match req.session.owner with
  | some o =>
    if truthy o.id then
      .next { req with owner := some o, libraryId := o.id }
    else
      .respond 401 "Unauthorized: Owner access required."
  | none => .respond 401 "Unauthorized: Owner access required."

/-- `authenticateUser` from auth.js. -/
def authenticateUser (req : Request) : MwResult :=
  match req.session.user with
  | some u =>
    if truthy u.id then
      .next req
    else
      .respond 401 "Unauthorized - Please log in"
  | none => .respond 401 "Unauthorized - Please log in"

/-- `authenticateAny` from auth.js. -/
def authenticateAny (req : Request) : MwResult :=
  if (match req.session.owner with | some o => truthy o.id | none => false)
      || (match req.session.user with | some u => truthy u.id | none => false)
      || (match req.session.student with | some s => truthy s.id | none => false) then
    .next req
  else
    .respond 401 "Unauthorized: Please log in."

/-- `ensureOwnerDataIsolation` from auth.js: expects `req.owner` to have
been attached by `authenticateOwner`; 401 when it is missing, else sets
`req.libraryId = req.owner.id`. -/
def ensureOwnerDataIsolation (req : Request) : MwResult :=
  match req.owner with
  | none => .respond 401 "Unauthorized. Owner context is missing."
  | some o => .next { req with libraryId := o.id }

end Auth

namespace OwnerAuth

/-- `authenticateOwner` from ownerAuth.js: admits iff the session owner
is present with a truthy id; attaches nothing. -/
def authenticateOwner (req : Request) : MwResult :=
  match req.session.owner with
  | some o =>
    if truthy o.id then
      .next req
    else
      .respond 401 "Unauthorized - Please log in as a library owner"
  | none => .respond 401 "Unauthorized - Please log in as a library owner"

/-- `ensureOwnerDataIsolation` from ownerAuth.js: 401 when the session
owner slot is unset, else sets `req.libraryId = req.session.owner.id`
(without inspecting the id) and calls `next`. -/
def ensureOwnerDataIsolation (req : Request) : MwResult :=
  match req.session.owner with
  | none => .respond 401 "Unauthorized - Please log in as library owner"
  | some o => .next { req with libraryId := o.id }

end OwnerAuth

/-- A row of the `users` table (the columns the login query selects). -/
structure UserRow where
  id : String
  username : String
  password : String
  role : String
  permissions : Option (List String)
deriving DecidableEq, Repr

/-- A row of the `libraries` table (the columns the owner login query
selects, plus the phone the query filters on). -/
structure LibraryRow where
  id : String
  library_code : String
  library_name : String
  owner_name : String
  owner_email : String
  owner_phone : String
  password : String
  status : String
deriving DecidableEq, Repr

/-- Result of a login handler: HTTP status, response message, and the
session after the handler ran. -/
structure HttpOutcome where
  status : Nat
  message : String
  session : Session
deriving DecidableEq, Repr

/-- Result of a logout handler: HTTP status, response message, and
whether `res.clearCookie('connect.sid')` was called on the path
taken. -/
structure LogoutOutcome where
  status : Nat
  message : String
  clearedCookie : Bool
deriving DecidableEq, Repr

namespace Auth

/-- `POST /login` from auth.js: 400 on falsy username/password (the
empty string is the falsy string), 401 `Invalid credentials` when no
`users` row matches the username, plaintext comparison of the password,
401 `Invalid credentials` on mismatch, else write
`req.session.user` and 200. -/
def userLogin (db : List UserRow) (username password : String)
    (sess : Session) : HttpOutcome :=
  if username == "" || password == "" then
    { status := 400, message := "Username and password are required",
      session := sess }
  else
    match db.find? (fun u => u.username == username) with
    | none =>
      { status := 401, message := "Invalid credentials", session := sess }
    | some u =>
      if password == u.password then
        { status := 200, message := "Login successful",
          session := { sess with user := some {
            id := some u.id, username := u.username, role := u.role,
            permissions := some (u.permissions.getD []) } } }
      else
        { status := 401, message := "Invalid credentials", session := sess }

/-- `GET /logout` from auth.js: `req.session.destroy(cb)`; on error the
callback returns 500 without touching the cookie, on success it clears
`connect.sid` and returns 200. `destroyFails` models whether the
session-store destroy reports an error. -/
def logout (destroyFails : Bool) : LogoutOutcome :=
  if destroyFails then
    { status := 500, message := "Could not log out, please try again.",
      clearedCookie := false }
  else
    { status := 200, message := "Logout successful", clearedCookie := true }

end Auth

namespace OwnerAuth

/-- `POST /login` from ownerAuth.js: 400 on falsy phone/password, 401
`Invalid credentials` when no `libraries` row matches the phone, 401
with a suspension message when the row's status is not `active`,
`bcrypt.compare` of the password (passed in as `bcryptCompare`), 401
`Invalid credentials` on mismatch, else write `req.session.owner` and
200. -/
def ownerLogin (bcryptCompare : String → String → Bool)
    (db : List LibraryRow) (phone password : String)
    (sess : Session) : HttpOutcome :=
  if phone == "" || password == "" then
    { status := 400, message := "Phone number and password are required",
      session := sess }
  else
    match db.find? (fun l => l.owner_phone == phone) with
    | none =>
      { status := 401, message := "Invalid credentials", session := sess }
    | some library =>
      if library.status != "active" then
        { status := 401,
          message := "Library account is suspended. Please contact support.",
          session := sess }
      else if !(bcryptCompare password library.password) then
        { status := 401, message := "Invalid credentials", session := sess }
      else
        { status := 200, message := "Login successful",
          session := { sess with owner := some {
            id := some library.id, libraryCode := library.library_code,
            libraryName := library.library_name,
            ownerName := library.owner_name,
            ownerEmail := library.owner_email, role := "owner" } } }

/-- `POST /logout` from ownerAuth.js: same structure as the auth.js
logout — on destroy error 500 without touching the cookie, on success
clear `connect.sid` and 200. -/
def ownerLogout (destroyFails : Bool) : LogoutOutcome :=
  if destroyFails then
    { status := 500, message := "Could not log out, please try again.",
      clearedCookie := false }
  else
    { status := 200, message := "Logout successful", clearedCookie := true }

end OwnerAuth

/-- The gate on `GET /` of the branch router:
`checkPermissions(['manage_branches', 'manage_library_students'], 'OR')`. -/
def branchesReadGate : Request → MwResult :=
  Auth.checkPermissions ["manage_branches", "manage_library_students"] "OR"

/-- The gate on `POST /`, `PUT /:id`, `DELETE /:id` of the branch
router: `checkPermissions(['manage_branches'])` with the default
logic. -/
def branchesWriteGate : Request → MwResult :=
  Auth.checkPermissionsDefaultLogic ["manage_branches"]

/-! ## Concrete sessions and requests used by witnesses -/

/-- A concrete owner principal. -/
def sampleOwner : OwnerPrincipal :=
  { id := some "7", libraryCode := "LIB1", libraryName := "Main",
    ownerName := "Asha", ownerEmail := "asha@example.com", role := "owner" }

/-- A request whose session holds only an owner. -/
def ownerOnlyReq : Request :=
  { session := { owner := some sampleOwner, user := none, student := none },
    owner := none, libraryId := none }

/-- A concrete non-admin user holding only `manage_library_students`. -/
def studentManagerUser : UserPrincipal :=
  { id := some "21", username := "meera", role := "member",
    permissions := some ["manage_library_students"] }

/-- A request whose session holds only `studentManagerUser`. -/
def studentManagerReq : Request :=
  { session := { owner := none, user := some studentManagerUser, student := none },
    owner := none, libraryId := none }

/-- A request from an anonymous client. -/
def anonReq : Request :=
  { session := Session.empty, owner := none, libraryId := none }

/-- A concrete staff user with an empty permissions list. -/
def staffUser : UserPrincipal :=
  { id := some "5", username := "ravi", role := "staff",
    permissions := some [] }

/-- A request whose session holds only `staffUser`. -/
def staffReq : Request :=
  { session := { owner := none, user := some staffUser, student := none },
    owner := none, libraryId := none }

/-- A concrete owner principal whose session record lacks an id. -/
def ownerNoId : OwnerPrincipal :=
  { id := none, libraryCode := "LIB2", libraryName := "Second",
    ownerName := "Binod", ownerEmail := "b@example.com", role := "owner" }

/-- A request whose session holds `ownerNoId` and nothing else. -/
def ownerNoIdReq : Request :=
  { session := { owner := some ownerNoId, user := none, student := none },
    owner := none, libraryId := none }

/-- A session that already holds an owner principal (and no user). -/
def ownerFirstSession : Session :=
  { owner := some sampleOwner, user := none, student := none }

/-- A concrete `users` table with one row. -/
def usersDb : List UserRow :=
  [{ id := "21", username := "meera", password := "pw123", role := "member",
     permissions := some ["manage_library_students"] }]

/-- A concrete `libraries` table with one active row. -/
def librariesDb : List LibraryRow :=
  [{ id := "7", library_code := "LIB1", library_name := "Main",
     owner_name := "Asha", owner_email := "asha@example.com",
     owner_phone := "9876543210", password := "stored-secret",
     status := "active" }]

/-- A concrete `libraries` table whose only row is suspended. -/
def suspendedLibrariesDb : List LibraryRow :=
  [{ id := "9", library_code := "LIB9", library_name := "Paused",
     owner_name := "Chitra", owner_email := "c@example.com",
     owner_phone := "1112223334", password := "pw", status := "suspended" }]

/-- A concrete stand-in for `bcrypt.compare` used in witnesses: the
submitted secret matches iff it equals the stored string. -/
def plaintextCompare (password hash : String) : Bool := password == hash

/-- `ownerOnlyReq` after `authenticateOwner` attached the owner context
and tenant id. -/
def ownerBoundReq : Request :=
  { session := ownerFirstSession, owner := some sampleOwner,
    libraryId := sampleOwner.id }

/-! ## Claims -/

/-- C1: for every session that holds an Owner, every call of the
authorization gate — `checkPermissions` with any required capability set
and any combinator, and the single-permission variant `checkPermission`
with any required permission — admits the request. -/
theorem C1_owner_bypass (req : Request)
    (h : req.session.owner.isSome = true)
    (perms : List String) (logic perm : String) :
    (Auth.checkPermissions perms logic req).admits = true ∧
    (Auth.checkPermission perm req).admits = true := by
  refine ⟨?_, ?_⟩
  · simp [Auth.checkPermissions, h, MwResult.admits]
  · unfold Auth.checkPermission
    cases hu : req.session.user with
    | none => simp [Auth.checkPermissionOwnerFallthrough, h, MwResult.admits]
    | some u =>
      by_cases h1 : (u.role == "admin" || u.role == "staff") = true
      · simp [h1, MwResult.admits]
      · by_cases h2 : perm ∈ u.permissions.getD []
        · simp [h1, h2, MwResult.admits]
        · simp [h1, h2, Auth.checkPermissionOwnerFallthrough, h,
            MwResult.admits]

/-- Witness for C1 at a concrete owner session. -/
theorem C1_owner_bypass_witness :
    (Auth.checkPermissions ["manage_branches"] "AND" ownerOnlyReq).admits = true ∧
    (Auth.checkPermission "manage_branches" ownerOnlyReq).admits = true :=
  C1_owner_bypass ownerOnlyReq (by decide) ["manage_branches"] "AND"
    "manage_branches"

/-- Evaluation of `checkPermissions` for a session holding a non-admin
user and no owner: the outcome is decided by the `every`/`some`
capability check alone. -/
theorem checkPermissions_nonadmin_eval (req : Request) (u : UserPrincipal)
    (ho : req.session.owner = none) (hu : req.session.user = some u)
    (hr : ¬ u.role = "admin") (perms : List String) (logic : String) :
    Auth.checkPermissions perms logic req =
      (if (if jsToUpperCase logic == "AND" then
            perms.all (fun p => (u.permissions.getD []).contains p)
          else
            perms.any (fun p => (u.permissions.getD []).contains p)) then
        MwResult.next req
      else
        MwResult.respond 403 "Forbidden - Insufficient permissions") := by
  have hadm : (u.role == "admin") = false := by simp [hr]
  unfold Auth.checkPermissions
  simp only [ho, hu, Option.isSome_none, Bool.false_eq_true, if_false, hadm]
  cases hb : (if (jsToUpperCase logic == "AND") then
      perms.all (fun p => (u.permissions.getD []).contains p)
    else
      perms.any (fun p => (u.permissions.getD []).contains p)) <;>
    simp [hb]

/-- C2: for a session holding a non-admin user and no owner,
`checkPermissions(required, 'AND')` admits iff every required capability
is among the user's permissions and `checkPermissions(required, 'OR')`
admits iff some required capability is; in particular a user holding
only `manage_library_students` passes the branch-read gate and is
rejected 403 Forbidden by the branch-write gate. -/
theorem C2_nonadmin_and_or_semantics (req : Request) (u : UserPrincipal)
    (ho : req.session.owner = none) (hu : req.session.user = some u)
    (hr : ¬ u.role = "admin") (perms : List String) :
    ((Auth.checkPermissions perms "AND" req).admits = true ↔
      ∀ p ∈ perms, p ∈ u.permissions.getD []) ∧
    ((Auth.checkPermissions perms "OR" req).admits = true ↔
      ∃ p ∈ perms, p ∈ u.permissions.getD []) ∧
    (u.permissions = some ["manage_library_students"] →
      branchesReadGate req = MwResult.next req ∧
      branchesWriteGate req =
        MwResult.respond 403 "Forbidden - Insufficient permissions") := by
  have hAND : (jsToUpperCase "AND" == "AND") = true := by decide
  have hOR : (jsToUpperCase "OR" == "AND") = false := by decide
  refine ⟨?_, ?_, ?_⟩
  · rw [checkPermissions_nonadmin_eval req u ho hu hr perms "AND"]
    simp only [hAND, if_true]
    cases hb : perms.all (fun p => (u.permissions.getD []).contains p) <;>
      simp [MwResult.admits, hb] <;> simpa using hb
  · rw [checkPermissions_nonadmin_eval req u ho hu hr perms "OR"]
    simp only [hOR, Bool.false_eq_true, if_false]
    cases hb : perms.any (fun p => (u.permissions.getD []).contains p) <;>
      simp [MwResult.admits, hb] <;> simpa using hb
  · intro hp
    constructor
    · show Auth.checkPermissions ["manage_branches", "manage_library_students"]
        "OR" req = MwResult.next req
      rw [checkPermissions_nonadmin_eval req u ho hu hr _ "OR"]
      simp [hOR, hp]
    · show Auth.checkPermissions ["manage_branches"] "OR" req =
        MwResult.respond 403 "Forbidden - Insufficient permissions"
      rw [checkPermissions_nonadmin_eval req u ho hu hr _ "OR"]
      simp [hOR, hp]

/-- Witness for C2 at a concrete non-admin session. -/
theorem C2_nonadmin_and_or_semantics_witness :
    ((Auth.checkPermissions ["manage_branches"] "AND" studentManagerReq).admits = true ↔
      ∀ p ∈ ["manage_branches"], p ∈ studentManagerUser.permissions.getD []) ∧
    ((Auth.checkPermissions ["manage_branches"] "OR" studentManagerReq).admits = true ↔
      ∃ p ∈ ["manage_branches"], p ∈ studentManagerUser.permissions.getD []) ∧
    (studentManagerUser.permissions = some ["manage_library_students"] →
      branchesReadGate studentManagerReq = MwResult.next studentManagerReq ∧
      branchesWriteGate studentManagerReq =
        MwResult.respond 403 "Forbidden - Insufficient permissions") :=
  C2_nonadmin_and_or_semantics studentManagerReq studentManagerUser rfl rfl
    (by decide) ["manage_branches"]

/-- C3 counterexample: for a concrete session holding a non-admin user
and no owner, `checkPermissions` with an empty required set and the ANY
combinator rejects with 403 Forbidden instead of admitting. -/
theorem C3_empty_any_counterexample :
    Auth.checkPermissions [] "OR" studentManagerReq =
      MwResult.respond 403 "Forbidden - Insufficient permissions" ∧
    (Auth.checkPermissions [] "OR" studentManagerReq).admits = false := by
  decide

/-- C3 amended: for every session holding a non-admin user and no
owner, `checkPermissions` with an empty required set and the ANY
combinator rejects with 403 Forbidden (`some` over an empty list is
false), rather than admitting. -/
theorem C3_empty_any_rejects (req : Request) (u : UserPrincipal)
    (ho : req.session.owner = none) (hu : req.session.user = some u)
    (hr : ¬ u.role = "admin") :
    Auth.checkPermissions [] "OR" req =
      MwResult.respond 403 "Forbidden - Insufficient permissions" := by
  have hOR : (jsToUpperCase "OR" == "AND") = false := by decide
  rw [checkPermissions_nonadmin_eval req u ho hu hr [] "OR"]
  simp [hOR]

/-- Witness for the amended C3 at a concrete staff session. -/
theorem C3_empty_any_rejects_witness :
    Auth.checkPermissions [] "OR" staffReq =
      MwResult.respond 403 "Forbidden - Insufficient permissions" :=
  C3_empty_any_rejects staffReq staffUser rfl rfl (by decide)

/-- C4 counterexample: the single-permission capability gate
`checkPermission` gives a staff user with an empty permissions list an
unconditional bypass, so the staff bypass is not confined to the
admin-or-staff gate. -/
theorem C4_staff_bypass_counterexample :
    Auth.checkPermission "manage_branches" staffReq =
      MwResult.next staffReq ∧
    staffUser.permissions = some [] ∧
    staffReq.session.owner = none := by
  decide

/-- C4 amended: in `checkPermissions` a staff user receives no
unconditional bypass — admission is decided strictly by the
permissions-set check — but both the single-permission gate
`checkPermission` and the admin-or-staff gate do bypass staff
unconditionally. -/
theorem C4_staff_no_bypass_in_checkPermissions (req : Request)
    (u : UserPrincipal) (ho : req.session.owner = none)
    (hu : req.session.user = some u) (hs : u.role = "staff")
    (perms : List String) (logic perm : String) :
    Auth.checkPermissions perms logic req =
      (if (if jsToUpperCase logic == "AND" then
            perms.all (fun p => (u.permissions.getD []).contains p)
          else
            perms.any (fun p => (u.permissions.getD []).contains p)) then
        MwResult.next req
      else
        MwResult.respond 403 "Forbidden - Insufficient permissions") ∧
    Auth.checkPermission perm req = MwResult.next req ∧
    Auth.checkAdminOrStaff req = MwResult.next req := by
  have hr : ¬ u.role = "admin" := by simp [hs]
  refine ⟨checkPermissions_nonadmin_eval req u ho hu hr perms logic, ?_, ?_⟩
  · unfold Auth.checkPermission
    simp [hu, hs]
  · unfold Auth.checkAdminOrStaff
    simp [ho, hu, hs]

/-- Witness for the amended C4 at a concrete staff session. -/
theorem C4_staff_no_bypass_witness :
    (Auth.checkPermissions ["manage_branches"] "OR" staffReq =
      (if (if jsToUpperCase "OR" == "AND" then
            (["manage_branches"]).all
              (fun p => (staffUser.permissions.getD []).contains p)
          else
            (["manage_branches"]).any
              (fun p => (staffUser.permissions.getD []).contains p)) then
        MwResult.next staffReq
      else
        MwResult.respond 403 "Forbidden - Insufficient permissions")) ∧
    Auth.checkPermission "manage_branches" staffReq =
      MwResult.next staffReq ∧
    Auth.checkAdminOrStaff staffReq = MwResult.next staffReq :=
  C4_staff_no_bypass_in_checkPermissions staffReq staffUser rfl rfl rfl
    ["manage_branches"] "OR" "manage_branches"

/-- C5 counterexample: an authenticated non-admin, non-staff user who
lacks the required permission is rejected by `checkPermission` with 401
Unauthenticated, not 403 Forbidden. -/
theorem C5_checkPermission_401_counterexample :
    studentManagerReq.session.user.isSome = true ∧
    studentManagerReq.session.owner = none ∧
    Auth.checkPermission "manage_branches" studentManagerReq =
      MwResult.respond 401 "Unauthorized - Please log in" := by
  decide

/-- C5 amended: for a session holding a non-admin user and no owner,
`checkPermissions` rejects insufficient permissions with 403 Forbidden;
but the single-permission gate `checkPermission` rejects a non-admin,
non-staff user lacking the permission with 401, never 403. -/
theorem C5_rejection_statuses (req : Request) (u : UserPrincipal)
    (ho : req.session.owner = none) (hu : req.session.user = some u)
    (hr : ¬ u.role = "admin") (perms : List String) (logic perm : String) :
    ((Auth.checkPermissions perms logic req).admits = false →
      Auth.checkPermissions perms logic req =
        MwResult.respond 403 "Forbidden - Insufficient permissions") ∧
    (¬ u.role = "staff" → perm ∉ u.permissions.getD [] →
      Auth.checkPermission perm req =
        MwResult.respond 401 "Unauthorized - Please log in") := by
  constructor
  · intro hrej
    rw [checkPermissions_nonadmin_eval req u ho hu hr perms logic] at hrej ⊢
    cases hb : (if jsToUpperCase logic == "AND" then
        perms.all (fun p => (u.permissions.getD []).contains p)
      else
        perms.any (fun p => (u.permissions.getD []).contains p))
    · simp [hb]
    · rw [hb] at hrej
      simp [MwResult.admits] at hrej
  · intro hstaff hcp
    unfold Auth.checkPermission Auth.checkPermissionOwnerFallthrough
    simp [hu, hr, hstaff, hcp, ho]

/-- Witness for the amended C5 at a concrete non-admin session. -/
theorem C5_rejection_statuses_witness :
    Auth.checkPermissions ["manage_branches"] "OR" studentManagerReq =
      MwResult.respond 403 "Forbidden - Insufficient permissions" ∧
    Auth.checkPermission "manage_branches" studentManagerReq =
      MwResult.respond 401 "Unauthorized - Please log in" :=
  ⟨(C5_rejection_statuses studentManagerReq studentManagerUser rfl rfl
      (by decide) ["manage_branches"] "OR" "manage_branches").1 (by decide),
   (C5_rejection_statuses studentManagerReq studentManagerUser rfl rfl
      (by decide) ["manage_branches"] "OR" "manage_branches").2 (by decide)
      (by decide)⟩

/-- C6 counterexample: a session whose owner record has no id is not
rejected by `ensureOwnerDataIsolation` — the binder admits the request
and leaves `req.libraryId` unset (not truthy), so a guarded handler can
run without a non-empty tenant id. -/
theorem C6_isolation_counterexample :
    OwnerAuth.ensureOwnerDataIsolation ownerNoIdReq =
      MwResult.next { ownerNoIdReq with libraryId := none } ∧
    truthy ({ ownerNoIdReq with libraryId := none } : Request).libraryId
      = false := by
  decide

/-- C6 amended: `ensureOwnerDataIsolation` rejects with 401 exactly when
the session owner slot is absent, and otherwise sets `req.libraryId` to
the owner's id without checking that the id is non-empty; the non-empty
guarantee holds only for the composed pipeline in which
`authenticateOwner` (which requires a truthy id) runs first. -/
theorem C6_isolation_binder (req : Request) :
    (req.session.owner = none →
      OwnerAuth.ensureOwnerDataIsolation req =
        MwResult.respond 401 "Unauthorized - Please log in as library owner") ∧
    (∀ o, req.session.owner = some o →
      OwnerAuth.ensureOwnerDataIsolation req =
        MwResult.next { req with libraryId := o.id }) ∧
    (∀ r, Auth.authenticateOwner req = MwResult.next r →
      truthy r.libraryId = true ∧
      ∀ r2, Auth.ensureOwnerDataIsolation r = MwResult.next r2 →
        truthy r2.libraryId = true) := by
  refine ⟨?_, ?_, ?_⟩
  · intro h
    unfold OwnerAuth.ensureOwnerDataIsolation
    simp [h]
  · intro o h
    unfold OwnerAuth.ensureOwnerDataIsolation
    simp [h]
  · intro r h
    unfold Auth.authenticateOwner at h
    cases ho : req.session.owner with
    | none => rw [ho] at h; simp at h
    | some o =>
      rw [ho] at h
      dsimp only at h
      by_cases ht : truthy o.id = true
      · rw [if_pos ht] at h
        injection h with hr
        subst hr
        refine ⟨by simpa using ht, ?_⟩
        intro r2 h2
        unfold Auth.ensureOwnerDataIsolation at h2
        simp only at h2
        injection h2 with hr2
        subst hr2
        simpa using ht
      · rw [if_neg ht] at h
        simp at h

/-- Witness for the amended C6: the binder 401s an anonymous request,
attaches the owner's id when one is present, and after
`authenticateOwner` the attached tenant id is truthy. -/
theorem C6_isolation_binder_witness :
    OwnerAuth.ensureOwnerDataIsolation anonReq =
      MwResult.respond 401 "Unauthorized - Please log in as library owner" ∧
    OwnerAuth.ensureOwnerDataIsolation ownerOnlyReq =
      MwResult.next { ownerOnlyReq with libraryId := sampleOwner.id } ∧
    truthy ownerBoundReq.libraryId = true :=
  ⟨(C6_isolation_binder anonReq).1 rfl,
   (C6_isolation_binder ownerOnlyReq).2.1 sampleOwner rfl,
   ((C6_isolation_binder ownerOnlyReq).2.2 ownerBoundReq (by decide)).1⟩

/-- C7 counterexample: a successful user login into a session that
already holds an Owner leaves the Owner in place, so two Principal
variants are active at once — the login does not replace the prior
Principal. -/
theorem C7_coexisting_principals_counterexample :
    (Auth.userLogin usersDb "meera" "pw123" ownerFirstSession).status
      = 200 ∧
    (Auth.userLogin usersDb "meera" "pw123" ownerFirstSession).session.owner
      = some sampleOwner ∧
    (Auth.userLogin usersDb "meera" "pw123"
      ownerFirstSession).session.user.isSome = true := by
  decide

/-- C7 amended: every successful login writes the newly constructed
principal into its own session slot only — user login overwrites
`session.user`, owner login overwrites `session.owner` — leaving the
other principal slots untouched, so principal variants from earlier
logins of other kinds can coexist in the session. -/
theorem C7_login_writes_own_slot (db : List UserRow)
    (ldb : List LibraryRow) (cmp : String → String → Bool)
    (username password phone secret : String) (sess : Session) :
    ((Auth.userLogin db username password sess).status = 200 →
      (Auth.userLogin db username password sess).session.owner = sess.owner ∧
      (Auth.userLogin db username password sess).session.student
        = sess.student ∧
      (Auth.userLogin db username password sess).session.user.isSome
        = true) ∧
    ((OwnerAuth.ownerLogin cmp ldb phone secret sess).status = 200 →
      (OwnerAuth.ownerLogin cmp ldb phone secret sess).session.user
        = sess.user ∧
      (OwnerAuth.ownerLogin cmp ldb phone secret sess).session.student
        = sess.student ∧
      (OwnerAuth.ownerLogin cmp ldb phone secret sess).session.owner.isSome
        = true) := by
  constructor
  · unfold Auth.userLogin
    split
    · intro h; simp at h
    · split
      · intro h; simp at h
      · split
        · intro _; exact ⟨rfl, rfl, rfl⟩
        · intro h; simp at h
  · unfold OwnerAuth.ownerLogin
    split
    · intro h; simp at h
    · split
      · intro h; simp at h
      · split
        · intro h; simp at h
        · split
          · intro h; simp at h
          · intro _; exact ⟨rfl, rfl, rfl⟩

/-- Witness for the amended C7 at concrete successful logins. -/
theorem C7_login_writes_own_slot_witness :
    ((Auth.userLogin usersDb "meera" "pw123" ownerFirstSession).session.owner
        = ownerFirstSession.owner ∧
      (Auth.userLogin usersDb "meera" "pw123"
        ownerFirstSession).session.student = ownerFirstSession.student ∧
      (Auth.userLogin usersDb "meera" "pw123"
        ownerFirstSession).session.user.isSome = true) ∧
    ((OwnerAuth.ownerLogin plaintextCompare librariesDb "9876543210"
        "stored-secret" ownerFirstSession).session.user
        = ownerFirstSession.user ∧
      (OwnerAuth.ownerLogin plaintextCompare librariesDb "9876543210"
        "stored-secret" ownerFirstSession).session.student
        = ownerFirstSession.student ∧
      (OwnerAuth.ownerLogin plaintextCompare librariesDb "9876543210"
        "stored-secret" ownerFirstSession).session.owner.isSome = true) :=
  ⟨(C7_login_writes_own_slot usersDb librariesDb plaintextCompare "meera"
      "pw123" "9876543210" "stored-secret" ownerFirstSession).1 (by decide),
   (C7_login_writes_own_slot usersDb librariesDb plaintextCompare "meera"
      "pw123" "9876543210" "stored-secret" ownerFirstSession).2 (by decide)⟩

/-- C8 counterexample: an owner login against a suspended library with a
wrong secret returns 401 with a suspension message, not the generic
`Invalid credentials` returned for an unknown identifier — so a failure
response does distinguish a known identifier from an unknown one. -/
theorem C8_suspension_message_counterexample :
    (OwnerAuth.ownerLogin plaintextCompare suspendedLibrariesDb
      "1112223334" "wrong" Session.empty).status = 401 ∧
    (OwnerAuth.ownerLogin plaintextCompare suspendedLibrariesDb
      "1112223334" "wrong" Session.empty).message =
      "Library account is suspended. Please contact support." ∧
    (OwnerAuth.ownerLogin plaintextCompare suspendedLibrariesDb
      "0000000000" "wrong" Session.empty).message = "Invalid credentials" := by
  decide

/-- C8 amended: failed logins on the unknown-identifier and wrong-secret
paths all return 401 with the identical generic `Invalid credentials`
message (for users, and for owners of active libraries); but the owner
login's suspension path returns 401 with a distinct message whenever the
identifier matches a non-active library, which distinguishes that known
identifier from an unknown one. -/
theorem C8_generic_credentials (db : List UserRow) (ldb : List LibraryRow)
    (cmp : String → String → Bool) (username password phone : String)
    (sess : Session) (hu : ¬ username = "") (hp : ¬ password = "")
    (hph : ¬ phone = "") :
    (db.find? (fun u => u.username == username) = none →
      Auth.userLogin db username password sess =
        { status := 401, message := "Invalid credentials",
          session := sess }) ∧
    (∀ u, db.find? (fun u2 => u2.username == username) = some u →
      ¬ password = u.password →
      Auth.userLogin db username password sess =
        { status := 401, message := "Invalid credentials",
          session := sess }) ∧
    (ldb.find? (fun l => l.owner_phone == phone) = none →
      OwnerAuth.ownerLogin cmp ldb phone password sess =
        { status := 401, message := "Invalid credentials",
          session := sess }) ∧
    (∀ l, ldb.find? (fun l2 => l2.owner_phone == phone) = some l →
      l.status = "active" → cmp password l.password = false →
      OwnerAuth.ownerLogin cmp ldb phone password sess =
        { status := 401, message := "Invalid credentials",
          session := sess }) ∧
    (∀ l, ldb.find? (fun l2 => l2.owner_phone == phone) = some l →
      ¬ l.status = "active" →
      OwnerAuth.ownerLogin cmp ldb phone password sess =
        { status := 401,
          message := "Library account is suspended. Please contact support.",
          session := sess }) := by
  refine ⟨?_, ?_, ?_, ?_, ?_⟩
  · intro hfind
    unfold Auth.userLogin
    simp [hu, hp, hfind]
  · intro u hfind hpw
    unfold Auth.userLogin
    simp [hu, hp, hfind, hpw]
  · intro hfind
    unfold OwnerAuth.ownerLogin
    simp [hph, hp, hfind]
  · intro l hfind hact hcmp
    unfold OwnerAuth.ownerLogin
    simp [hph, hp, hfind, hact, hcmp]
  · intro l hfind hact
    unfold OwnerAuth.ownerLogin
    simp [hph, hp, hfind, hact]

/-- Witness for the amended C8 at concrete failed logins. -/
theorem C8_generic_credentials_witness :
    Auth.userLogin usersDb "nobody" "pw123" Session.empty =
      { status := 401, message := "Invalid credentials",
        session := Session.empty } ∧
    Auth.userLogin usersDb "meera" "wrongpw" Session.empty =
      { status := 401, message := "Invalid credentials",
        session := Session.empty } ∧
    OwnerAuth.ownerLogin plaintextCompare librariesDb "9876543210" "bad"
        Session.empty =
      { status := 401, message := "Invalid credentials",
        session := Session.empty } ∧
    OwnerAuth.ownerLogin plaintextCompare suspendedLibrariesDb "1112223334"
        "pw" Session.empty =
      { status := 401,
        message := "Library account is suspended. Please contact support.",
        session := Session.empty } :=
  ⟨(C8_generic_credentials usersDb librariesDb plaintextCompare "nobody"
      "pw123" "9876543210" Session.empty (by decide) (by decide)
      (by decide)).1 (by decide),
   (C8_generic_credentials usersDb librariesDb plaintextCompare "meera"
      "wrongpw" "9876543210" Session.empty (by decide) (by decide)
      (by decide)).2.1 (usersDb.get ⟨0, by decide⟩) (by decide) (by decide),
   (C8_generic_credentials usersDb librariesDb plaintextCompare "meera"
      "bad" "9876543210" Session.empty (by decide) (by decide)
      (by decide)).2.2.2.1 (librariesDb.get ⟨0, by decide⟩) (by decide)
      (by decide) (by decide),
   (C8_generic_credentials usersDb suspendedLibrariesDb plaintextCompare
      "meera" "pw" "1112223334" Session.empty (by decide) (by decide)
      (by decide)).2.2.2.2 (suspendedLibrariesDb.get ⟨0, by decide⟩)
      (by decide) (by decide)⟩

/-- C9 counterexample: when the session-store destroy fails, the logout
handlers return 500 without clearing the `connect.sid` cookie — the
cookie is not cleared on every exit path. -/
theorem C9_cookie_not_cleared_counterexample :
    (Auth.logout true).clearedCookie = false ∧
    (Auth.logout true).status = 500 ∧
    (OwnerAuth.ownerLogout true).clearedCookie = false := by
  decide

/-- C9 amended: on logout the session cookie is cleared only on the
successful-destroy path; when destroy fails, both logout handlers return
a 500 error (not a silent success) but do not clear the cookie. -/
theorem C9_logout_cookie (destroyFails : Bool) :
    Auth.logout destroyFails = OwnerAuth.ownerLogout destroyFails ∧
    (destroyFails = false →
      Auth.logout destroyFails =
        { status := 200, message := "Logout successful",
          clearedCookie := true }) ∧
    (destroyFails = true →
      Auth.logout destroyFails =
        { status := 500, message := "Could not log out, please try again.",
          clearedCookie := false }) := by
  cases destroyFails
  · exact ⟨rfl, fun _ => rfl, fun h => by simp at h⟩
  · exact ⟨rfl, fun h => by simp at h, fun _ => rfl⟩

/-- Witness for the amended C9 on both destroy outcomes. -/
theorem C9_logout_cookie_witness :
    Auth.logout false =
      { status := 200, message := "Logout successful",
        clearedCookie := true } ∧
    Auth.logout true =
      { status := 500, message := "Could not log out, please try again.",
        clearedCookie := false } :=
  ⟨(C9_logout_cookie false).2.1 rfl, (C9_logout_cookie true).2.2 rfl⟩

/-- C10: `checkPermissions` evaluates its combinator argument only
through whether its uppercased form equals `AND`: every call equals the
call with `"AND"` or `"OR"` accordingly, and the spec's names `ALL` and
`ANY`, as well as the default `OR`, all uppercase to something other
than `AND`, hence select the some-element-held evaluation, while the
lowercase `and` selects the every-element-held one. -/
theorem C10_combinator_parsing (perms : List String) (req : Request)
    (logic : String) :
    Auth.checkPermissions perms logic req =
      Auth.checkPermissions perms
        (if jsToUpperCase logic == "AND" then "AND" else "OR") req ∧
    (jsToUpperCase "ALL" == "AND") = false ∧
    (jsToUpperCase "ANY" == "AND") = false ∧
    (jsToUpperCase "OR" == "AND") = false ∧
    (jsToUpperCase "and" == "AND") = true := by
  have hAND : (jsToUpperCase "AND" == "AND") = true := by decide
  have hOR : (jsToUpperCase "OR" == "AND") = false := by decide
  refine ⟨?_, by decide, by decide, by decide, by decide⟩
  cases h : (jsToUpperCase logic == "AND") <;>
    · unfold Auth.checkPermissions
      simp only [h, hAND, hOR, Bool.false_eq_true, if_false, if_true]
